import Mathlib

/-!
Verification of `proxy_checker.py` (Amkushu999/Proxych).

This file is a shallow embedding of the core of `src/proxy_checker.py`:
the endpoint-string parser, the port validator, the external-validation
response handling, the per-candidate protocol probe, the per-protocol
fallback race, the batch orchestrator, and the semaphore discipline of
`ProxyChecker.check_proxy`.  Machine integers are modelled as `Nat`/`Int`;
elapsed-time measurements (floats in the source) are modelled as opaque
`Nat` measurements; fallible operations return `Option`/`Except`-shaped
data.  Each definition carries a comment naming the source lines it embeds.
-/

namespace Proxych

/-- Module constant `MAX_CONCURRENT_CHECKS` (proxy_checker.py line 38). -/
def MAX_CONCURRENT_CHECKS : Nat := 20

/-- Module constant `CONNECT_TIMEOUT` (line 41), in seconds. -/
def CONNECT_TIMEOUT : Nat := 12

/-- Module constant `REQUEST_TIMEOUT` (line 42), in seconds. -/
def REQUEST_TIMEOUT : Nat := 18

/-- Module constant `SOCKET_TIMEOUT` (line 43), in seconds. -/
def SOCKET_TIMEOUT : Nat := 8

/-! ## Python `int()` conversion (used by `_parse_proxy_string` lines 303/311)

`int(port_str)` in Python strips surrounding whitespace, accepts an
optional leading sign, and accepts base-10 digits with single underscores
between digits (PEP 515).  We model the ASCII fragment of this (Python
additionally accepts non-ASCII decimal digits and Unicode whitespace,
which no claim exercises). -/

/-- ASCII whitespace, as stripped by Python `int()` before conversion. -/
def isPyWS (c : Char) : Bool :=
  c = ' ' ∨ c = '\t' ∨ c = '\n' ∨ c = '\x0d' ∨ c = '\x0b' ∨ c = '\x0c'

/-- Strip leading and trailing whitespace from a character list. -/
def stripWS (l : List Char) : List Char :=
  ((l.dropWhile isPyWS).reverse.dropWhile isPyWS).reverse

/-- Numeric value of a decimal digit character. -/
def digitVal (c : Char) : Nat := c.toNat - '0'.toNat

/-- Accumulating scan of the digit-and-underscore body of a Python integer
literal: an underscore must sit between two digits, every other character
must be a decimal digit. -/
def pyDigitsGo (acc : Nat) : List Char → Option Nat
  | [] => some acc
  | '_' :: c :: rest =>
      if c.isDigit then pyDigitsGo (acc * 10 + digitVal c) rest else none
  | '_' :: [] => none
  | c :: rest =>
      if c.isDigit then pyDigitsGo (acc * 10 + digitVal c) rest else none

/-- Parse a nonempty digit group (with PEP 515 underscores) to its value. -/
def pyDigits : List Char → Option Nat
  | [] => none
  | c :: rest => if c.isDigit then pyDigitsGo (digitVal c) rest else none

/-- Python `int(s)` for base 10: strip whitespace, optional sign, digit
group with underscores; `none` models the `ValueError` raised otherwise. -/
def pyInt (s : String) : Option Int :=
  match stripWS s.data with
  | '+' :: rest => (pyDigits rest).map (fun n => (n : Int))
  | '-' :: rest => (pyDigits rest).map (fun n => -(n : Int))
  | rest => (pyDigits rest).map (fun n => (n : Int))

/-! ## `_parse_proxy_string` (lines 287-317) and `_validate_ip_port` (lines 319-333) -/

/-- Python `s.split(sep)` for a single-character separator, over the
character list: every occurrence of `sep` starts a new field, and the
result is never empty (splitting the empty string gives `[""]`). -/
def pySplit (sep : Char) : List Char → List (List Char)
  | [] => [[]]
  | c :: rest =>
      let r := pySplit sep rest
      if c = sep then [] :: r
      else
        match r with
        | h :: t => (c :: h) :: t
        | [] => [[c]]

/-- Python `s.split(sep)` lifted back to strings. -/
def pySplitStr (sep : Char) (s : String) : List String :=
  (pySplit sep s.data).map (fun l => { data := l })

/-- Result of `_parse_proxy_string`: either the `(host, port, auth)` tuple
or the error-message string the method returns. -/
inductive ParseResult where
  | ok (host : String) (port : Int) (auth : Option (String × String))
  | err (msg : String)
deriving DecidableEq, Repr

/-- Embedding of `_parse_proxy_string` (lines 287-317): split on `:`,
accept exactly 2 or 4 fields, convert the port with Python `int()`. -/
def parseProxyString (s : String) : ParseResult :=
  match pySplitStr ':' s with
  | [host, portStr] =>
      match pyInt portStr with
      | some p => .ok host p none
      | none => .err "Invalid port number. Must be an integer."
  | [host, portStr, user, pass] =>
      match pyInt portStr with
      | some p => .ok host p (some (user, pass))
      | none => .err "Invalid port number. Must be an integer."
  | _ => .err "Invalid proxy format. Use 'ip:port' or 'ip:port:username:password'"

/-- Embedding of `_validate_ip_port` (lines 319-333): the host is accepted
without validation, the port must lie in `[1, 65535]`. -/
def validateIpPort (_host : String) (port : Int) : Option String :=
  if port < 1 ∨ port > 65535 then
    some "Invalid port number. Port must be between 1 and 65535."
  else none

/-- The combined parse-then-validate prefix of `check_proxy`
(lines 100-111): parse errors and range errors are both returned to the
caller as strings; otherwise the endpoint survives to the probing stages. -/
def endpointOutcome (s : String) : ParseResult :=
  match parseProxyString s with
  | .err m => .err m
  | .ok h p a =>
      match validateIpPort h p with
      | some m => .err m
      | none => .ok h p a

/-- Classification of an endpoint string following the words of the
specification (spec section 4.1): field count first, then numeric port
conversion, then the `1 ≤ port ≤ 65535` range check; the host passes
through unvalidated. -/
inductive SpecParseOutcome where
  | accepted (host : String) (port : Int) (auth : Option (String × String))
  | formatError
  | numericError
  | rangeError
deriving DecidableEq, Repr

/-- Endpoint classification as described by the specification text
(section 4.1), written independently of the code structure. -/
def specParseClassify (s : String) : SpecParseOutcome :=
  let fields := pySplitStr ':' s
  if fields.length = 2 ∨ fields.length = 4 then
    match pyInt (fields.getD 1 "") with
    | none => .numericError
    | some p =>
        if 1 ≤ p ∧ p ≤ 65535 then
          .accepted (fields.getD 0 "") p
            (if fields.length = 4 then some (fields.getD 2 "", fields.getD 3 "") else none)
        else .rangeError
  else .formatError

/-- The error string the spec outcome maps to in the code. -/
def specOutcomeAsCode : SpecParseOutcome → ParseResult
  | .accepted h p a => .ok h p a
  | .formatError => .err "Invalid proxy format. Use 'ip:port' or 'ip:port:username:password'"
  | .numericError => .err "Invalid port number. Must be an integer."
  | .rangeError => .err "Invalid port number. Port must be between 1 and 65535."

/-! ## JSON values and Python truthiness

The external-API handler and the probe-enrichment code inspect parsed
JSON bodies.  We model JSON values without arrays and floats: in every
embedded code path a JSON array behaves exactly like the other non-dict
shapes (its membership test or subscripting raises, which the source
swallows), and no claim involves float-valued fields. -/

/-- A parsed JSON value (arrays and floats omitted, see section comment). -/
inductive JValue where
  | null
  | bool (b : Bool)
  | num (n : Int)
  | str (s : String)
  | obj (fields : List (String × JValue))
deriving Repr

/-- Python dict lookup `d.get(k)` on the field list of a JSON object
(keys are unique in parsed JSON, so first match suffices). -/
def jLookup (kvs : List (String × JValue)) (k : String) : Option JValue :=
  (kvs.find? (fun p => p.1 = k)).map (fun p => p.2)

/-- Python truthiness of a JSON value (`if data:`, `not forwarded_for`). -/
def jTruthy : JValue → Bool
  | .null => false
  | .bool b => b
  | .num n => decide (n ≠ 0)
  | .str s => decide (s ≠ "")
  | .obj kvs => !kvs.isEmpty

/-- Python `str.strip()`: surrounding whitespace removed. -/
def pyStrip (s : String) : String := { data := stripWS s.data }

/-! ## `_test_proxy` (lines 494-627): one probe of one candidate URL

The network is abstracted as a `TransportOutcome`: either a response
(status code, elapsed measurement, Content-Type header, and the JSON
body if reading and parsing it succeeded within the secondary timeout)
or one of the distinct exception classes the method catches.  Elapsed
times (floats in the source) are modelled as whole numbers of seconds. -/

/-- Outcome of the proxied request in `_test_proxy`: a response, or one
of the failure classes distinguished by the except clauses at
lines 601-625.  `otherError` carries the exception type name and covers
both generic handlers (lines 619 and 623), which produce the same text. -/
inductive TransportOutcome where
  | response (status : Nat) (elapsed : Nat) (contentType : String) (body : Option JValue)
  | requestTimeout
  | timeoutOuter
  | proxyConnectionError
  | connectorError
  | sslError
  | clientError
  | cancelled
  | otherError (typeName : String)
deriving Repr

/-- The per-protocol result dictionary built by `_test_proxy` and
consumed by `_test_proxy_with_fallbacks` and `_format_response`.
`working` stores the truthiness of the value the source stores, which is
how every consumer reads it. -/
structure TestResult where
  protocol : String
  working : Bool
  status : String
  time : Nat
  ip : Option JValue := none
  anonymity : Option String := none
deriving Repr

/-- Does the character list contain `needle` as a contiguous segment? -/
def listHasSeg (needle : List Char) : List Char → Bool
  | [] => needle.isEmpty
  | c :: rest => needle.isPrefixOf (c :: rest) || listHasSeg needle rest

/-- Substring containment, Python `needle in hay`. -/
def strContains (hay needle : String) : Bool := listHasSeg needle.data hay.data

/-- Anonymity classification from forwarding headers (lines 579-589). -/
def anonymityFrom (headers : List (String × JValue)) : String :=
  let fwd := (jLookup headers "X-Forwarded-For").getD (.str "")
  let realIp := (jLookup headers "X-Real-Ip").getD (.str "")
  let via := (jLookup headers "Via").getD (.str "")
  if ¬jTruthy fwd ∧ ¬jTruthy realIp ∧ ¬jTruthy via then "Elite (Level 1)"
  else if ¬jTruthy fwd ∧ (jTruthy realIp ∨ jTruthy via) then "Anonymous (Level 2)"
  else "Transparent (Level 3)"

/-- The header-inspection tail of the enrichment block (lines 578-589):
`response_json.get("headers", {})` followed by the anonymity rules; a
non-dict `headers` value raises inside the swallowed try block, leaving
`anonymity` unset. -/
def withHeaderAnonymity (r : TestResult) (kvs : List (String × JValue)) : TestResult :=
  match (jLookup kvs "headers").getD (.obj []) with
  | .obj hs => { r with anonymity := some (anonymityFrom hs) }
  | _ => r

/-- The JSON enrichment block of `_test_proxy` (lines 565-594): extract a
reported IP from `origin` (first comma field, stripped) or `query`, then
infer anonymity; every failure inside the block is swallowed, keeping
whatever was already assigned.  `body = none` models a JSON read/parse
failure or the 2-second body timeout. -/
def enrich (r : TestResult) (body : Option JValue) : TestResult :=
  match body with
  | none => r
  | some (.obj kvs) =>
      match jLookup kvs "origin" with
      | some (.str s) =>
          withHeaderAnonymity
            { r with ip := some (.str (pyStrip ((pySplitStr ',' s).getD 0 ""))) } kvs
      | some _ => r
      | none =>
          match jLookup kvs "query" with
          | some v => withHeaderAnonymity { r with ip := some v } kvs
          | none => withHeaderAnonymity r kvs
  | some _ => r

/-- Embedding of `_test_proxy` (lines 494-627).  Any response with status
below 500 is working (line 558); enrichment runs only for JSON
Content-Type; a 5xx response and each caught exception class set a
distinguishing status text and leave `working` false. -/
def testProxy (protocol : String) (o : TransportOutcome) : TestResult :=
  let base : TestResult := { protocol := protocol, working := false, status := "❌ Failed", time := 0 }
  match o with
  | .response status elapsed ct body =>
      if status < 500 then
        let r := { base with
          working := true
          status := "✅ Working (" ++ toString elapsed ++ ".00s)"
          time := elapsed }
        if strContains ct "application/json" then enrich r body else r
      else { base with status := "❌ HTTP " ++ toString status, time := elapsed }
  | .requestTimeout => { base with status := "❌ Request Timeout" }
  | .timeoutOuter => { base with status := "❌ Timeout" }
  | .proxyConnectionError => { base with status := "❌ Proxy Connection Error" }
  | .connectorError => { base with status := "❌ Connection Failed" }
  | .sslError => { base with status := "❌ SSL Error" }
  | .clientError => { base with status := "❌ Client Error" }
  | .cancelled => { base with status := "❌ Request Cancelled" }
  | .otherError t => { base with status := "❌ Error: " ++ t }

/-- Does the transport outcome count as a working response per the claim:
a response whose status code is strictly below 500? -/
def isOkResponse : TransportOutcome → Bool
  | .response status _ _ _ => status < 500
  | _ => false

/-- The cause categories among non-working probe outcomes. -/
inductive FailCat where
  | httpServerError
  | requestTimeout
  | timeoutOuter
  | proxyConn
  | connFailed
  | ssl
  | client
  | cancelled
  | other
deriving DecidableEq, Repr

/-- The failure cause of a transport outcome; `none` for a working
(status below 500) response. -/
def failCat : TransportOutcome → Option FailCat
  | .response status _ _ _ => if status < 500 then none else some .httpServerError
  | .requestTimeout => some .requestTimeout
  | .timeoutOuter => some .timeoutOuter
  | .proxyConnectionError => some .proxyConn
  | .connectorError => some .connFailed
  | .sslError => some .ssl
  | .clientError => some .client
  | .cancelled => some .cancelled
  | .otherError _ => some .other

/-- Recover the failure cause from the status text alone, by its
distinguishing prefix; `none` when the text is not one of the failure
texts `_test_proxy` produces. -/
def decodeCat : List Char → Option FailCat
  | '❌' :: ' ' :: 'H' :: 'T' :: 'T' :: 'P' :: ' ' :: _ => some .httpServerError
  | '❌' :: ' ' :: 'E' :: 'r' :: 'r' :: 'o' :: 'r' :: ':' :: ' ' :: _ => some .other
  | '❌' :: ' ' :: 'R' :: 'e' :: 'q' :: 'u' :: 'e' :: 's' :: 't' :: ' ' :: 'T' :: 'i' :: 'm' :: 'e' :: 'o' :: 'u' :: 't' :: [] => some .requestTimeout
  | '❌' :: ' ' :: 'R' :: 'e' :: 'q' :: 'u' :: 'e' :: 's' :: 't' :: ' ' :: 'C' :: 'a' :: 'n' :: 'c' :: 'e' :: 'l' :: 'l' :: 'e' :: 'd' :: [] => some .cancelled
  | '❌' :: ' ' :: 'T' :: 'i' :: 'm' :: 'e' :: 'o' :: 'u' :: 't' :: [] => some .timeoutOuter
  | '❌' :: ' ' :: 'P' :: 'r' :: 'o' :: 'x' :: 'y' :: _ => some .proxyConn
  | '❌' :: ' ' :: 'C' :: 'o' :: 'n' :: 'n' :: 'e' :: 'c' :: 't' :: 'i' :: 'o' :: 'n' :: _ => some .connFailed
  | '❌' :: ' ' :: 'S' :: 'S' :: 'L' :: _ => some .ssl
  | '❌' :: ' ' :: 'C' :: 'l' :: 'i' :: 'e' :: 'n' :: 't' :: _ => some .client
  | _ => none

/-! ## `_test_proxy_with_fallbacks` (lines 432-492): the per-protocol race

The method builds one `_test_proxy` coroutine per candidate URL (a list
comprehension without `create_task`, line 458), awaits `asyncio.gather`
over all of them under `asyncio.wait_for` with a `REQUEST_TIMEOUT * 1.5`
ceiling, and on completion scans the gathered results in candidate list
order.  Each candidate is modelled by its wall-clock completion time and
the outcome `gather(..., return_exceptions=True)` delivers for it (its
result dictionary, or the exception it raised). -/

/-- The per-protocol race ceiling `REQUEST_TIMEOUT * 1.5` (line 464). -/
def FALLBACK_TIMEOUT : Nat := REQUEST_TIMEOUT * 3 / 2

/-- One fallback candidate probe: completion time plus delivered outcome. -/
structure Candidate where
  time : Nat
  outcome : Except String TestResult
deriving Repr

/-- The default failed per-protocol result (lines 448-453). -/
def defaultResult (protocol : String) : TestResult :=
  { protocol := protocol
    working := false
    status := "❌ Not working with " ++ protocol
    time := 0 }

/-- The result-processing loop (lines 468-480): exceptions are skipped,
every non-exception result becomes the new `last_result`, and the first
result whose `working` flag is set is returned at once. -/
def processResults (last : TestResult) : List (Except String TestResult) → TestResult
  | [] => last
  | .error _ :: rest => processResults last rest
  | .ok r :: rest => if r.working then r else processResults r rest

/-- When `asyncio.gather` over the candidates completes: once every
candidate has completed. -/
def gatherTime (cands : List Candidate) : Nat :=
  (cands.map (fun c => c.time)).foldr max 0

/-- Whether `asyncio.wait_for` hits the per-protocol timeout (lines
462-465): some candidate is still in flight when `FALLBACK_TIMEOUT`
elapses, so the gather has not completed. -/
def fallbackTimedOut (cands : List Candidate) : Bool :=
  decide (FALLBACK_TIMEOUT < gatherTime cands)

/-- The message of the `AttributeError` the timeout branch raises:
`tasks` at line 458 is a list comprehension of coroutine objects (no
`create_task` there, unlike lines 536 and 784), and a coroutine object
has no `done` attribute. -/
def coroutineDoneMsg : String := "'coroutine' object has no attribute 'done'"

/-- Embedding of `_test_proxy_with_fallbacks` (lines 432-492).  When
every candidate completes in time, the gathered results are scanned in
candidate list order (lines 468-480) and the method returns normally.
On `asyncio.TimeoutError` the except branch (lines 486-489) iterates
`if not task.done()` over `tasks` — raw coroutine objects, since line
458 never wraps them in `create_task` — so the very first iteration
raises `AttributeError` and the `return last_result` at line 492 is
unreachable on the timeout path: the method raises instead of producing
a per-protocol result. -/
def testProxyWithFallbacks (protocol : String) (cands : List Candidate) :
    Except String TestResult :=
  if fallbackTimedOut cands then .error coroutineDoneMsg
  else .ok (processResults (defaultResult protocol) (cands.map (fun c => c.outcome)))

/-- The wall-clock moment control leaves `_test_proxy_with_fallbacks`,
normally or by the timeout-path exception: when the gather completes,
or at the timeout ceiling, whichever is earlier. -/
def fallbackReturnTime (cands : List Candidate) : Nat :=
  min (gatherTime cands) FALLBACK_TIMEOUT

/-- Did this candidate deliver a working result? -/
def isWorkingCand (c : Candidate) : Bool :=
  match c.outcome with
  | .ok r => r.working
  | .error _ => false

/-- The first working result in candidate list order, if any. -/
def firstWorkingResult : List (Except String TestResult) → Option TestResult
  | [] => none
  | .error _ :: rest => firstWorkingResult rest
  | .ok r :: rest => if r.working then some r else firstWorkingResult rest

/-- The last non-exception result in candidate list order, if any. -/
def lastOkResult : List (Except String TestResult) → Option TestResult
  | [] => none
  | .error _ :: rest => lastOkResult rest
  | .ok r :: rest => some ((lastOkResult rest).getD r)

/-- Claim C1 as stated: whenever some candidate succeeds, the protocol
result equals the result of the first candidate to succeed (the working
candidate with the earliest completion time) and is returned the moment
that candidate completes, without waiting for the others. -/
def claimC1statement : Prop :=
  ∀ (protocol : String) (cands : List Candidate) (c : Candidate) (r : TestResult),
    c ∈ cands → c.outcome = .ok r → r.working = true →
    (∀ c2 ∈ cands, isWorkingCand c2 = true → c.time ≤ c2.time) →
    testProxyWithFallbacks protocol cands = .ok r ∧ fallbackReturnTime cands = c.time

/-- Claim C7 as stated: when no candidate succeeds before the
per-protocol timeout, the method returns a result, namely that of the
last completed non-exception candidate (the default only if every
candidate raised). -/
def claimC7statement : Prop :=
  ∀ (protocol : String) (cands : List Candidate),
    (∀ c ∈ cands, isWorkingCand c = true → FALLBACK_TIMEOUT < c.time) →
    ∀ (c : Candidate) (r : TestResult), c ∈ cands → c.outcome = .ok r →
      (∀ c2 ∈ cands, (∃ r2, c2.outcome = .ok r2) → c2.time ≤ c.time) →
      testProxyWithFallbacks protocol cands = .ok r

/-- Counterexample data for C1: the slow candidate (first in list order)
also succeeds. -/
def slowWinner : TestResult :=
  { protocol := "HTTP", working := true, status := "✅ Working (10.00s)", time := 10 }

/-- Counterexample data for C1: the fast candidate (second in list
order) succeeds first in wall-clock time. -/
def fastWinner : TestResult :=
  { protocol := "HTTP", working := true, status := "✅ Working (1.00s)", time := 1 }

/-- The C1 race: candidate 1 succeeds at t=10, candidate 2 at t=1. -/
def raceCands : List Candidate := [⟨10, .ok slowWinner⟩, ⟨1, .ok fastWinner⟩]

/-- Counterexample data for C7: a failed result completed at t=1. -/
def earlyFailure : TestResult :=
  { protocol := "HTTP", working := false, status := "❌ HTTP 503", time := 1 }

/-- Counterexample data for C7: a failed result completed at t=100,
after the 27-second per-protocol timeout. -/
def lateFailure : TestResult :=
  { protocol := "HTTP", working := false, status := "❌ Connection Failed", time := 100 }

/-- The C7 scenario: one candidate fails early, the other completes
(failed) only after the per-protocol timeout has fired. -/
def timeoutCands : List Candidate := [⟨1, .ok earlyFailure⟩, ⟨100, .ok lateFailure⟩]

/-! ## The external-validation branch of `check_proxy` (lines 131-235)

The RapidAPI call and its response handling.  The transport is
abstracted as an `ApiEnv`: a response (status code plus the parsed JSON
body when `resp.json()` succeeded within its 5-second safety timeout,
lines 176-177) or a transport error anywhere on the way (session
creation, connection, request timeout) — every exception path lands in
the logging handlers at lines 227-232 and control falls through to the
manual fallback tester at line 234. -/

/-- What the transport delivered for the external-API call. -/
inductive ApiEnv where
  | transportError
  | response (status : Nat) (body : Option JValue)
deriving Repr

/-- Outcome of the external-validation branch: four per-protocol working
flags (the truthiness of the `is*ProxyValid` values, which is how every
consumer reads them), or fall through to manual fallback testing. -/
inductive ApiOutcome where
  | usable (httpFlag httpsFlag socks4Flag socks5Flag : Bool)
  | fallback
deriving DecidableEq, Repr

/-- Read the four protocol flags with `result_data.get(key, False)`
(lines 189-215). -/
def flagsFrom (kvs : List (String × JValue)) : ApiOutcome :=
  .usable (jTruthy ((jLookup kvs "isHttpProxyValid").getD (.bool false)))
          (jTruthy ((jLookup kvs "isHttpsProxyValid").getD (.bool false)))
          (jTruthy ((jLookup kvs "isSocks4ProxyValid").getD (.bool false)))
          (jTruthy ((jLookup kvs "isSocks5ProxyValid").getD (.bool false)))

/-- The test `"status" in data and data["status"] == "success"`
(line 182). -/
def statusIsSuccess (kvs : List (String × JValue)) : Bool :=
  match jLookup kvs "status" with
  | some (.str s) => s = "success"
  | _ => false

/-- The branch for a `status == "success"` body (line 183):
`result_data = data.get("data", {})`; if that value is not a dict, the
subsequent `.get` calls raise and the swallowed exception means
fallback. -/
def apiDataBranch (kvs : List (String × JValue)) : ApiOutcome :=
  match (jLookup kvs "data").getD (.obj []) with
  | .obj rkvs => flagsFrom rkvs
  | _ => .fallback

/-- The alternate-format branch (lines 185-186): accepted when
`isHttpProxyValid` or `isHttpsProxyValid` is a top-level key; otherwise
`result_data` is never assigned, the flag reads raise `NameError`, and
the swallowed exception means fallback. -/
def apiTopLevelBranch (kvs : List (String × JValue)) : ApiOutcome :=
  if (jLookup kvs "isHttpProxyValid").isSome || (jLookup kvs "isHttpsProxyValid").isSome then
    flagsFrom kvs
  else .fallback

/-- Embedding of the RapidAPI response handling (lines 163-232): status
must satisfy `200 <= status < 500`, the body must parse as JSON and be
truthy, and the shape dispatch of lines 180-186 applies.  A non-dict
body always ends in a raised-and-swallowed error (its membership test or
subscripting fails), hence fallback. -/
def processApiResponse (env : ApiEnv) : ApiOutcome :=
  match env with
  | .transportError => .fallback
  | .response status body =>
      if 200 ≤ status ∧ status < 500 then
        match body with
        | none => .fallback
        | some data =>
            if jTruthy data then
              match data with
              | .obj kvs =>
                  if statusIsSuccess kvs then apiDataBranch kvs
                  else apiTopLevelBranch kvs
              | _ => .fallback
            else .fallback
      else .fallback

/-- The four per-protocol field names of the validation contract. -/
def protocolFieldNames : List String :=
  ["isHttpProxyValid", "isHttpsProxyValid", "isSocks4ProxyValid", "isSocks5ProxyValid"]

/-- The usability condition exactly as claim C4 states it: status in
`[200,500)` and a JSON body exposing the four per-protocol fields either
nested under a `data` object or present at the top level. -/
def claimC4usable (env : ApiEnv) : Bool :=
  match env with
  | .transportError => false
  | .response status body =>
      decide (200 ≤ status) && decide (status < 500) &&
      (match body with
       | some (.obj kvs) =>
           protocolFieldNames.all (fun k => (jLookup kvs k).isSome) ||
           (match jLookup kvs "data" with
            | some (.obj rkvs) => protocolFieldNames.all (fun k => (jLookup rkvs k).isSome)
            | _ => false)
       | _ => false)

/-- Claim C4 as stated: a response is used if and only if the claimed
usability condition holds. -/
def claimC4statement : Prop :=
  ∀ env : ApiEnv, processApiResponse env ≠ .fallback ↔ claimC4usable env = true

/-- The usability condition the code actually implements: status in
range, truthy JSON dict body, and either a top-level
`status == "success"` with a dict-or-absent `data` value, or one of the
two HTTP flag names present at top level. -/
def codeUsable (env : ApiEnv) : Bool :=
  match env with
  | .transportError => false
  | .response status body =>
      decide (200 ≤ status) && decide (status < 500) &&
      (match body with
       | some (.obj kvs) =>
           !kvs.isEmpty &&
           (if statusIsSuccess kvs then
              match (jLookup kvs "data").getD (.obj []) with
              | .obj _ => true
              | _ => false
            else
              (jLookup kvs "isHttpProxyValid").isSome ||
              (jLookup kvs "isHttpsProxyValid").isSome)
       | _ => false)

/-- C4 counterexample input: status 200 and a body carrying all four
fields under `data`, but no top-level `status` or flag keys. -/
def apiCexEnv : ApiEnv :=
  .response 200 (some (.obj [("data", .obj
    [("isHttpProxyValid", .bool true), ("isHttpsProxyValid", .bool true),
     ("isSocks4ProxyValid", .bool true), ("isSocks5ProxyValid", .bool true)])]))

/-! ## `check_multiple_proxies` (lines 765-829): the batch orchestrator

All check tasks are created up front (lines 781-787), then awaited in
sub-batches of `batch_size = min(10, len(proxy_list))` (line 790) with a
`REQUEST_TIMEOUT * 3` ceiling per sub-batch.  The environment gives each
task's outcome as observed by `asyncio.gather(..., return_exceptions=True)`
and tells which sub-batches hit their timeout. -/

/-- Outcome of awaiting one endpoint's check task: the report string it
returned, or the exception it raised (its message). -/
inductive TaskOutcome where
  | ok (report : String)
  | exn (msg : String)
deriving DecidableEq, Repr

/-- The entry appended for one gathered task (lines 804-812). -/
def batchEntry (proxyList : List String) (idx : Nat) : TaskOutcome → String
  | .ok s => s
  | .exn m => "❌ Error checking proxy " ++ proxyList.getD idx "unknown" ++ ": " ++ m

/-- The entry appended for each member of a timed-out sub-batch
(lines 814-819). -/
def timeoutEntry (proxyList : List String) (idx : Nat) : String :=
  "❌ Timeout checking proxy " ++ proxyList.getD idx "unknown"

/-- The entries contributed by the sub-batch starting at index `i`
(lines 796-824): the sub-batch holds `min bs (n - i)` tasks; a timed-out
sub-batch contributes one timeout entry per member, a completed one the
per-task entries in order. -/
def batchEntries (proxyList : List String) (env : Nat → TaskOutcome) (timedOut : Nat → Bool)
    (bs n i : Nat) : List String :=
  if timedOut i then
    (List.range (min bs (n - i))).map (fun j => timeoutEntry proxyList (i + j))
  else
    (List.range (min bs (n - i))).map (fun j => batchEntry proxyList (i + j) (env (i + j)))

/-- The sub-batch start indices, Python `range(0, n, bs)` for a positive
step: `ceil(n / bs)` starts spaced `bs` apart. -/
def batchStarts (n bs : Nat) : List Nat :=
  (List.range ((n + bs - 1) / bs)).map (fun b => b * bs)

/-- Embedding of `check_multiple_proxies` (lines 765-829).  `initFailure`
models an exception from `proxy_checker.initialize()` (line 778), caught
by the outer handler (lines 827-829).  For an empty input list
`batch_size = min(10, 0) = 0`, so `range(0, 0, 0)` at line 794 raises
`ValueError("range() arg 3 must not be zero")`, which the same outer
handler converts into a single-entry error list. -/
def checkMultipleProxies (proxyList : List String) (env : Nat → TaskOutcome)
    (timedOut : Nat → Bool) (initFailure : Option String) : List String :=
  match initFailure with
  | some m => ["❌ An error occurred in batch processing: " ++ m]
  | none =>
      if proxyList.length = 0 then
        ["❌ An error occurred in batch processing: range() arg 3 must not be zero"]
      else
        let n := proxyList.length
        let bs := min 10 n
        (batchStarts n bs).flatMap (fun i => batchEntries proxyList env timedOut bs n i)

/-- Claim C3 as stated: the output always has exactly the length of the
input. -/
def claimC3statement : Prop :=
  ∀ (l : List String) (env : Nat → TaskOutcome) (timedOut : Nat → Bool)
    (initFailure : Option String),
    (checkMultipleProxies l env timedOut initFailure).length = l.length

/-- The entry claim C3 expects at output index `i`: the gathered outcome
of task `i` (its report, or its converted exception message), or the
timeout message naming endpoint `i` when the sub-batch of `i` (the one
starting at `i / bs * bs`) timed out. -/
def expectedEntry (proxyList : List String) (env : Nat → TaskOutcome) (timedOut : Nat → Bool)
    (bs i : Nat) : String :=
  if timedOut (i / bs * bs) then timeoutEntry proxyList i
  else batchEntry proxyList i (env i)

/-! ## Task scheduling order in `check_multiple_proxies` (claim C8)

`asyncio.create_task` schedules its coroutine to run at the parent
coroutine's next suspension point.  The loop at lines 782-787 creates
EVERY endpoint task before the sub-batch loop at lines 794-824 performs
its first `await`, so at that first await every task — whatever
sub-batch its index falls into — becomes runnable and starts executing.
We model the statement order of the orchestrator as an event trace:
first one `spawn` per task in input order, then one `awaitBatch` per
sub-batch in sub-batch order. -/

/-- An orchestration event: a task creation, or the await of the
sub-batch starting at the given index. -/
inductive OrchEvent where
  | spawn (taskIdx : Nat)
  | awaitBatch (start : Nat)
deriving DecidableEq, Repr

/-- The orchestration event order of `check_multiple_proxies` for `n`
endpoints: all task creations (line 784), then the sub-batch awaits
(line 798) in order. -/
def orchestrationTrace (n : Nat) : List OrchEvent :=
  (List.range n).map .spawn ++ (batchStarts n (min 10 n)).map .awaitBatch

/-- Claim C8 as stated: a task belonging to a later sub-batch is not
started until the await of the previous sub-batch has finished — in
trace order, its `spawn` event sits after that `awaitBatch` event. -/
def claimC8statement : Prop :=
  ∀ n i, i < n → 0 < i / 10 →
    (orchestrationTrace n).indexOf (.awaitBatch ((i / 10 - 1) * 10)) <
      (orchestrationTrace n).indexOf (.spawn i)

/-! ## The semaphore discipline of `check_proxy` (claim C2)

`ProxyChecker.__init__` creates `asyncio.Semaphore(max_concurrent)`
with capacity `MAX_CONCURRENT_CHECKS = 20` (lines 48-56), and the ONLY
`async with self.semaphore` in the module is at the top of `check_proxy`
(line 99): one endpoint check acquires one permit for its entire
pipeline, and its socket probe, its external-API call, and its fallback
candidate probes (4 protocols x 3 candidate URLs launched concurrently,
lines 250-273 and 458) all run inside that single acquisition without
touching the semaphore themselves.  Executions are modelled as traces
of acquire/release and operation start/end events; well-formedness
encodes the semaphore blocking semantics plus the structural facts of
the code (ops run between their check's acquire and release, at most
`maxOpsPerCheck` distinct op slots per check). -/

/-- Candidate URLs for the HTTP fallback test (lines 251-255). -/
def httpTestUrls : List String :=
  ["http://httpbin.org/get", "http://ip-api.com/json", "http://example.com"]

/-- Candidate URLs for the HTTPS fallback test (lines 256-260). -/
def httpsTestUrls : List String :=
  ["https://httpbin.org/get", "https://ifconfig.me/all.json", "https://example.com"]

/-- Candidate URLs for the SOCKS4 fallback test (lines 261-265). -/
def socks4TestUrls : List String :=
  ["http://httpbin.org/get", "http://ip.jsontest.com", "http://example.com"]

/-- Candidate URLs for the SOCKS5 fallback test (lines 266-270). -/
def socks5TestUrls : List String :=
  ["http://httpbin.org/get", "http://ip-api.com/json", "http://example.com"]

/-- The fallback probe plan of `check_proxy` (lines 250-271): per
protocol, the ordered candidate URL list. -/
def fallbackProtocolUrls : List (String × List String) :=
  [("HTTP", httpTestUrls), ("HTTPS", httpsTestUrls),
   ("SOCKS4", socks4TestUrls), ("SOCKS5", socks5TestUrls)]

/-- Number of fallback candidate probes one check launches (12). -/
def fallbackProbeCount : Nat := (fallbackProtocolUrls.map (fun p => p.2.length)).sum

/-- Network-operation slots of a single endpoint check: one socket
probe, one external-API call, and the fallback probes. -/
def maxOpsPerCheck : Nat := 1 + 1 + fallbackProbeCount

/-- One scheduling event: a check acquiring or releasing the semaphore,
or one of its network operations starting or finishing. -/
inductive SemEvent where
  | acq (check : Nat)
  | rel (check : Nat)
  | opStart (check : Nat) (op : Nat)
  | opEnd (check : Nat) (op : Nat)
deriving DecidableEq, Repr

/-- Is the event a semaphore acquisition? -/
def isAcq : SemEvent → Bool
  | .acq _ => true
  | _ => false

/-- Is the event a semaphore release? -/
def isRel : SemEvent → Bool
  | .rel _ => true
  | _ => false

/-- Is the event a network-operation start? -/
def isOpStartEv : SemEvent → Bool
  | .opStart _ _ => true
  | _ => false

/-- Is the event a network-operation end? -/
def isOpEndEv : SemEvent → Bool
  | .opEnd _ _ => true
  | _ => false

/-- Total semaphore acquisitions in a trace. -/
def countAcq (tr : List SemEvent) : Nat := tr.countP isAcq

/-- Total semaphore releases in a trace. -/
def countRel (tr : List SemEvent) : Nat := tr.countP isRel

/-- Acquisitions by one check. -/
def countAcqOf (c : Nat) (tr : List SemEvent) : Nat := tr.countP (fun e => e == .acq c)

/-- Releases by one check. -/
def countRelOf (c : Nat) (tr : List SemEvent) : Nat := tr.countP (fun e => e == .rel c)

/-- Starts of one operation slot of one check. -/
def countOpStartOf (c k : Nat) (tr : List SemEvent) : Nat :=
  tr.countP (fun e => e == .opStart c k)

/-- Ends of one operation slot of one check. -/
def countOpEndOf (c k : Nat) (tr : List SemEvent) : Nat :=
  tr.countP (fun e => e == .opEnd c k)

/-- Semaphore permits held after a trace. -/
def permitsHeld (tr : List SemEvent) : Int := (countAcq tr : Int) - countRel tr

/-- Network operations in flight after a trace. -/
def inFlightOps (tr : List SemEvent) : Int :=
  (tr.countP isOpStartEv : Int) - tr.countP isOpEndEv

/-- Concurrently running operations of one check, summed over its
operation slots. -/
def perCheckInFlight (c : Nat) (tr : List SemEvent) : Nat :=
  ((List.range maxOpsPerCheck).map (fun k => countOpStartOf c k tr - countOpEndOf c k tr)).sum

/-- May the event occur after the prefix `pre`?  `acq` blocks while all
20 permits are taken (`asyncio.Semaphore` semantics) and each check
acquires once; operations carry a slot below `maxOpsPerCheck`, run only
between their check's acquire and release, and start once; a check
releases only once, after its operations have finished (the pipeline
awaits its probes inside the `async with` block). -/
def eventOk (pre : List SemEvent) : SemEvent → Bool
  | .acq c => decide (countAcq pre < MAX_CONCURRENT_CHECKS + countRel pre) &&
      (countAcqOf c pre == 0)
  | .rel c => (countAcqOf c pre == 1) && (countRelOf c pre == 0) &&
      (List.range maxOpsPerCheck).all (fun k => countOpStartOf c k pre == countOpEndOf c k pre)
  | .opStart c k => decide (k < maxOpsPerCheck) && (countAcqOf c pre == 1) &&
      (countRelOf c pre == 0) && (countOpStartOf c k pre == 0)
  | .opEnd c k => (countOpStartOf c k pre == 1) && (countOpEndOf c k pre == 0)

/-- A trace of the modelled system: every event is allowed by its
prefix. -/
def wfTrace (tr : List SemEvent) : Prop :=
  ∀ i (h : i < tr.length), eventOk (tr.take i) tr[i] = true

instance (tr : List SemEvent) : Decidable (wfTrace tr) := by
  unfold wfTrace
  exact Nat.decidableBallLT _ _

/-- Claim C2 as stated: at every instant the in-flight network
operations are bounded by the ceiling capacity, and each holds a permit
(in-flight operations never exceed permits held). -/
def claimC2statement : Prop :=
  ∀ tr : List SemEvent, wfTrace tr → ∀ i,
    inFlightOps (tr.take i) ≤ (MAX_CONCURRENT_CHECKS : Int) ∧
    inFlightOps (tr.take i) ≤ permitsHeld (tr.take i)

/-- A well-formed trace in which two admitted checks have launched all
12 of their fallback probes: 24 operations in flight under 2 permits. -/
def overloadTrace : List SemEvent :=
  [.acq 0, .acq 1] ++ (List.range 12).map (.opStart 0) ++ (List.range 12).map (.opStart 1)

/-! ## `_check_socket_connection` (lines 352-391), `_format_response`
(lines 670-743), and the `check_proxy` pipeline (lines 87-285) -/

/-- What the socket-probe thread produced: the `connect_ex` result code
of `_socket_connect` (0 means success), or the message of an exception
raised while awaiting the executor. -/
inductive SocketOutcome where
  | code (result : Nat)
  | raised (msg : String)
deriving Repr

/-- The socket probe dictionary, keeping the fields `check_proxy` reads:
the measured time and the error text, if any (the `connected` flag is
never read downstream). -/
structure SocketResult where
  time : Nat
  error : Option String
deriving Repr

/-- Embedding of `_check_socket_connection` (lines 352-391): a non-zero
result code becomes a connection error with the code in the text; an
exception while awaiting becomes an error message and leaves the time
at its initial 0. -/
def checkSocketConnection (elapsed : Nat) (o : SocketOutcome) : SocketResult :=
  match o with
  | .code r =>
      if r ≠ 0 then { time := elapsed, error := some ("Connection error (code: " ++ toString r ++ ")") }
      else { time := elapsed, error := none }
  | .raised m => { time := 0, error := some ("Error: " ++ m) }

/-- The early-return message for a dead socket (line 116). -/
def notRespondingMsg (proxyStr err : String) : String :=
  "❌ Proxy <code>" ++ proxyStr ++ "</code> is not responding. " ++ err

/-- Python `f"{t:.3f}"` for a whole-second measurement. -/
def fmt3 (t : Nat) : String := toString t ++ ".000"

/-- Rendering of a JSON value interpolated into an f-string: strings
render as themselves, scalars as their Python forms; a dict rendering
(which a real probe response never puts in `ip`) is abbreviated. -/
def jDisplay : JValue → String
  | .str s => s
  | .num n => toString n
  | .bool true => "True"
  | .bool false => "False"
  | .null => "None"
  | .obj _ => "\x7b...\x7d"

/-- The lines one protocol contributes to the report (lines 713-724):
its status line, then anonymity and detected-IP lines when working and
truthy, then a blank spacer. -/
def protocolLine (label : String) (r : TestResult) : List String :=
  [label ++ ": " ++ r.status] ++
  (if r.working then
     (match r.anonymity with
      | some a => ["  ↳ Anonymity: " ++ a]
      | none => []) ++
     (match r.ip with
      | some v => if jTruthy v then ["  ↳ Detected IP: " ++ jDisplay v] else []
      | none => [])
   else []) ++ [""]

/-- Embedding of `_format_response` (lines 670-743). -/
def formatResponse (proxyStr : String) (connectionTime : Nat)
    (httpR httpsR socks4R socks5R : TestResult) (username : Option String) : String :=
  let protocolResults := [(httpR, "🌐 HTTP"), (httpsR, "🔒 HTTPS"),
                          (socks4R, "🧦 SOCKS4"), (socks5R, "🧦 SOCKS5")]
  let body := protocolResults.flatMap (fun pr => protocolLine pr.2 pr.1)
  let workingProtocols := (protocolResults.filter (fun pr => pr.1.working)).map
    (fun pr => pr.1.protocol)
  let header :=
    if !workingProtocols.isEmpty then
      "✅ Proxy <b>" ++ proxyStr ++ "</b> is working! (" ++
        String.intercalate ", " workingProtocols ++ ")"
    else
      "❌ Proxy <b>" ++ proxyStr ++ "</b> is not working with any protocols"
  let pre := ["🔍 <b>Proxy Check Results:</b>", "<code>" ++ proxyStr ++ "</code>", "",
              "⏱ Connection time: " ++ fmt3 connectionTime ++ " seconds", ""]
  let tail := [""] ++ ["──────────────────"] ++
    (match username with
     | some u => ["Checked by: @" ++ u]
     | none => []) ++ ["Powered by 𝗣𝗿𝗼𝘅𝘆𝗖𝗛𝗞"]
  String.intercalate "\n" ([header] ++ pre ++ body ++ tail)

/-- The per-protocol result dictionary the external-API branch builds
(lines 189-215). -/
def apiResult (protocol : String) (flag : Bool) (elapsed : Nat) : TestResult :=
  { protocol := protocol, working := flag,
    status := if flag then "✅ Working" else "❌ Failed", time := elapsed }

/-- The abstracted environment of one `check_proxy` call: the socket
probe behaviour, the external-API transport behaviour, and for every
(protocol, candidate URL) pair the fallback probe behaviour. -/
structure CheckEnv where
  socketElapsed : Nat
  socket : SocketOutcome
  api : ApiEnv
  apiElapsed : Nat
  fallback : String → String → Candidate

/-- Which network operations one `check_proxy` call performed. -/
structure CallTrace where
  socketProbed : Bool
  apiCalled : Bool
  fallbackProbes : List (String × String)
deriving DecidableEq, Repr

/-- Embedding of `ProxyChecker.check_proxy` (lines 87-285) composed
with its module-level wrapper `check_proxy` (lines 748-763): parse,
validate, socket-probe (early return on a dead socket), external API
(return its report when usable), else the four fallback races.  The
fallback races are gathered at line 273 WITHOUT `return_exceptions`, so
if any race hits its timeout its `AttributeError` (see
`testProxyWithFallbacks`) propagates out of the method; the wrapper
catches it and returns the generic error string of line 763 with the
exception text.  The report string is returned together with the trace
of operations performed. -/
def checkProxy (proxyStr : String) (env : CheckEnv) (username : Option String) :
    String × CallTrace :=
  match parseProxyString proxyStr with
  | .err m => (m, ⟨false, false, []⟩)
  | .ok host port _auth =>
      match validateIpPort host port with
      | some m => (m, ⟨false, false, []⟩)
      | none =>
          let socketResult := checkSocketConnection env.socketElapsed env.socket
          match socketResult.error with
          | some e => (notRespondingMsg proxyStr e, ⟨true, false, []⟩)
          | none =>
              let connectionTime := socketResult.time
              match processApiResponse env.api with
              | .usable f1 f2 f3 f4 =>
                  (formatResponse proxyStr connectionTime
                     (apiResult "HTTP" f1 env.apiElapsed)
                     (apiResult "HTTPS" f2 env.apiElapsed)
                     (apiResult "SOCKS4" f3 env.apiElapsed)
                     (apiResult "SOCKS5" f4 env.apiElapsed) username,
                   ⟨true, true, []⟩)
              | .fallback =>
                  let probes := fallbackProtocolUrls.flatMap (fun p => p.2.map (fun u => (p.1, u)))
                  match testProxyWithFallbacks "HTTP" (httpTestUrls.map (env.fallback "HTTP")),
                      testProxyWithFallbacks "HTTPS" (httpsTestUrls.map (env.fallback "HTTPS")),
                      testProxyWithFallbacks "SOCKS4" (socks4TestUrls.map (env.fallback "SOCKS4")),
                      testProxyWithFallbacks "SOCKS5" (socks5TestUrls.map (env.fallback "SOCKS5")) with
                  | .ok r1, .ok r2, .ok r3, .ok r4 =>
                      (formatResponse proxyStr connectionTime r1 r2 r3 r4 username,
                       ⟨true, true, probes⟩)
                  | _, _, _, _ =>
                      ("❌ An error occurred while checking the proxy: " ++ coroutineDoneMsg,
                       ⟨true, true, probes⟩)

/-- A concrete environment whose socket probe fails with connect code
111 (connection refused). -/
def deadEnv : CheckEnv :=
  { socketElapsed := 1
    socket := .code 111
    api := .transportError
    apiElapsed := 0
    fallback := fun _ _ => ⟨0, .error "unused"⟩ }

/-- C5: for every raw endpoint string, the code path that parses and then
validates it (`_parse_proxy_string` followed by `_validate_ip_port`)
classifies the string exactly as the specification describes: 2 or 4
colon-separated fields succeed, any other field count is the format
error, a port field rejected by Python `int()` is the numeric-format
error, a parsed port outside `[1, 65535]` is the range error, and an
accepted endpoint carries the host through unvalidated.  No network
activity can occur here: both sides are pure functions of the string. -/
theorem C5_parser_classification (s : String) :
    endpointOutcome s = specOutcomeAsCode (specParseClassify s) := by
  unfold endpointOutcome parseProxyString specParseClassify specOutcomeAsCode validateIpPort
  rcases h : pySplitStr ':' s with _ | ⟨a, _ | ⟨b, _ | ⟨c, _ | ⟨d, _ | ⟨e, rest⟩⟩⟩⟩⟩ <;>
    simp only [h, List.length_cons, List.length_nil, List.getD_cons_succ, List.getD_cons_zero]
  · simp
  · simp
  · cases hp : pyInt b with
    | none => simp [hp]
    | some p =>
      rcases em (p < 1 ∨ 65535 < p) with hr | hr
      · have h2 : ¬(1 ≤ p ∧ p ≤ 65535) := by omega
        simp [hp, hr, h2]
      · have h2 : 1 ≤ p ∧ p ≤ 65535 := by omega
        simp [hp, hr, h2]
  · simp
  · cases hp : pyInt b with
    | none => simp [hp]
    | some p =>
      rcases em (p < 1 ∨ 65535 < p) with hr | hr
      · have h2 : ¬(1 ≤ p ∧ p ≤ 65535) := by omega
        simp [hp, hr, h2]
      · have h2 : 1 ≤ p ∧ p ≤ 65535 := by omega
        simp [hp, hr, h2]
  · rw [if_neg (by omega)]

/-- C5 witness: the classification theorem applied at a concrete endpoint
string, with both sides evaluated. -/
theorem C5_parser_classification_witness :
    endpointOutcome "1.2.3.4:8080" = specOutcomeAsCode (specParseClassify "1.2.3.4:8080") :=
  C5_parser_classification "1.2.3.4:8080"

/-- C10: the port field is converted with Python `int()`, so the parser
accepts non-canonical spellings: surrounding whitespace, an explicit
plus sign, and PEP 515 digit-group underscores all parse to port 80. -/
theorem C10_python_int_port_leniency :
    parseProxyString "host: 80 " = .ok "host" 80 none ∧
    parseProxyString "host:+80" = .ok "host" 80 none ∧
    parseProxyString "host:8_0" = .ok "host" 80 none := by
  refine ⟨by decide, by decide, by decide⟩

/-- Header-anonymity inspection never changes the `working` flag. -/
theorem withHeaderAnonymity_working (r : TestResult) (kvs : List (String × JValue)) :
    (withHeaderAnonymity r kvs).working = r.working := by
  unfold withHeaderAnonymity; split <;> rfl

/-- Header-anonymity inspection never changes the status text. -/
theorem withHeaderAnonymity_status (r : TestResult) (kvs : List (String × JValue)) :
    (withHeaderAnonymity r kvs).status = r.status := by
  unfold withHeaderAnonymity; split <;> rfl

/-- Enrichment never changes the `working` flag (a working verdict is not
downgraded by enrichment failure). -/
theorem enrich_working (r : TestResult) (b : Option JValue) :
    (enrich r b).working = r.working := by
  unfold enrich
  repeat' split
  all_goals first | rfl | simp [withHeaderAnonymity_working]

/-- Enrichment never changes the status text. -/
theorem enrich_status (r : TestResult) (b : Option JValue) :
    (enrich r b).status = r.status := by
  unfold enrich
  repeat' split
  all_goals first | rfl | simp [withHeaderAnonymity_status]

/-- No status text beginning with the success mark decodes to a failure
cause. -/
theorem decode_cons_ok (l : List Char) : decodeCat ('✅' :: l) = none := rfl

/-- Every status text with the server-error prefix decodes to the
server-error cause. -/
theorem decode_http_tail (l : List Char) :
    decodeCat ('❌' :: ' ' :: 'H' :: 'T' :: 'T' :: 'P' :: ' ' :: l) = some .httpServerError := rfl

/-- Every status text with the generic-exception prefix decodes to the
generic-exception cause. -/
theorem decode_other_tail (l : List Char) :
    decodeCat ('❌' :: ' ' :: 'E' :: 'r' :: 'r' :: 'o' :: 'r' :: ':' :: ' ' :: l) = some .other := rfl

/-- The working status text decodes to no failure cause. -/
theorem decode_status_working (e : Nat) :
    decodeCat ("✅ Working (" ++ toString e ++ ".00s)").data = none := by
  have h : "✅ Working (".data = ['✅', ' ', 'W', 'o', 'r', 'k', 'i', 'n', 'g', ' ', '('] := rfl
  rw [String.data_append, String.data_append, h]
  exact decode_cons_ok _

/-- The `HTTP n` status text decodes to the server-error cause. -/
theorem decode_status_http (n : Nat) :
    decodeCat ("❌ HTTP " ++ toString n).data = some .httpServerError := by
  have h : "❌ HTTP ".data = ['❌', ' ', 'H', 'T', 'T', 'P', ' '] := rfl
  rw [String.data_append, h]
  exact decode_http_tail _

/-- The generic-exception status text decodes to its cause. -/
theorem decode_status_other (t : String) :
    decodeCat ("❌ Error: " ++ t).data = some .other := by
  have h : "❌ Error: ".data = ['❌', ' ', 'E', 'r', 'r', 'o', 'r', ':', ' '] := rfl
  rw [String.data_append, h]
  exact decode_other_tail _

/-- C6: a per-candidate probe yields `working = true` exactly for an HTTP
response with status strictly below 500; every other outcome (5xx
response, timeouts, proxy-connect error, connection failure, TLS error,
generic client error, cancellation, other exceptions) yields
`working = false` with a status text from which the failure cause is
recoverable (`decodeCat` reads the cause back from the text alone). -/
theorem C6_probe_verdict_and_cause (protocol : String) (o : TransportOutcome) :
    (testProxy protocol o).working = isOkResponse o ∧
    decodeCat (testProxy protocol o).status.data = failCat o := by
  cases o with
  | response status elapsed ct body =>
      by_cases h : status < 500
      · constructor
        · simp only [testProxy, isOkResponse, if_pos h]
          split
          · rw [enrich_working]
            simp [h]
          · simp [h]
        · simp only [testProxy, failCat, if_pos h]
          split
          · rw [enrich_status]
            exact decode_status_working elapsed
          · exact decode_status_working elapsed
      · constructor
        · simp [testProxy, isOkResponse, h]
        · simp only [testProxy, failCat, if_neg h]
          exact decode_status_http status
  | requestTimeout => exact ⟨rfl, rfl⟩
  | timeoutOuter => exact ⟨rfl, rfl⟩
  | proxyConnectionError => exact ⟨rfl, rfl⟩
  | connectorError => exact ⟨rfl, rfl⟩
  | sslError => exact ⟨rfl, rfl⟩
  | clientError => exact ⟨rfl, rfl⟩
  | cancelled => exact ⟨rfl, rfl⟩
  | otherError t => exact ⟨rfl, decode_status_other t⟩

/-- When some gathered result is working, the processing loop returns the
first working result in list order, whatever `last_result` held. -/
theorem processResults_of_firstWorking (l : List (Except String TestResult)) :
    ∀ (last r : TestResult), firstWorkingResult l = some r → processResults last l = r := by
  induction l with
  | nil => intro last r h; simp [firstWorkingResult] at h
  | cons hd tl ih =>
      intro last r h
      cases hd with
      | error e =>
          simp only [firstWorkingResult] at h
          simp only [processResults]
          exact ih last r h
      | ok r0 =>
          by_cases hw : r0.working
          · simp only [firstWorkingResult, hw, if_pos] at h
            simp only [processResults, hw, if_pos]
            exact (Option.some.injEq _ _ ▸ h).symm ▸ rfl
          · simp only [firstWorkingResult, hw, if_neg, Bool.false_eq_true, if_false] at h
            simp only [processResults, hw, Bool.false_eq_true, if_false]
            exact ih r0 r h

/-- When no gathered result is working, the processing loop returns the
last non-exception result in list order, or its initial value if every
entry was an exception. -/
theorem processResults_no_working (l : List (Except String TestResult)) :
    ∀ (last : TestResult), firstWorkingResult l = none →
      processResults last l = (lastOkResult l).getD last := by
  induction l with
  | nil => intro last h; rfl
  | cons hd tl ih =>
      intro last h
      cases hd with
      | error e =>
          simp only [firstWorkingResult] at h
          simp only [processResults, lastOkResult]
          exact ih last h
      | ok r0 =>
          by_cases hw : r0.working
          · simp [firstWorkingResult, hw] at h
          · simp only [firstWorkingResult, hw, Bool.false_eq_true, if_false] at h
            simp only [processResults, hw, Bool.false_eq_true, if_false, lastOkResult,
              Option.getD_some]
            exact ih r0 h

/-- C1 counterexample: the claim is false on `raceCands`, where the
second candidate succeeds at t=1 and the first at t=10.  The code gathers
all candidates before scanning, so it returns at t=10 (not at t=1 as the
claim requires) and it returns the first working result in candidate
list order (the slow candidate), not the result of the first candidate
to succeed. -/
theorem C1_counterexample_race_waits_for_gather : ¬ claimC1statement := by
  intro h
  have hm : (⟨1, .ok fastWinner⟩ : Candidate) ∈ raceCands := by simp [raceCands]
  have hmin : ∀ c2 ∈ raceCands, isWorkingCand c2 = true →
      (⟨1, .ok fastWinner⟩ : Candidate).time ≤ c2.time := by
    intro c2 hc2 _
    simp [raceCands] at hc2
    rcases hc2 with rfl | rfl <;> decide
  have hc := h "HTTP" raceCands ⟨1, .ok fastWinner⟩ fastWinner hm rfl rfl hmin
  exact absurd hc.2 (by decide)

/-- C1 amended: when the gather does not time out and some candidate
succeeds, the per-protocol result is the first working result in
candidate list order, and it is returned only when the gather completes
(after the last candidate), not when the winning candidate completes. -/
theorem C1_first_working_in_list_order (protocol : String) (cands : List Candidate)
    (r : TestResult)
    (hto : fallbackTimedOut cands = false)
    (hfw : firstWorkingResult (cands.map (fun c => c.outcome)) = some r) :
    testProxyWithFallbacks protocol cands = .ok r ∧
    fallbackReturnTime cands = gatherTime cands := by
  constructor
  · unfold testProxyWithFallbacks
    rw [hto]
    simp only [Bool.false_eq_true, if_false]
    exact congrArg Except.ok (processResults_of_firstWorking _ _ _ hfw)
  · unfold fallbackReturnTime
    unfold fallbackTimedOut at hto
    simp only [decide_eq_false_iff_not, not_lt] at hto
    omega

/-- C1 witness: the amended theorem applied to the concrete race. -/
theorem C1_first_working_in_list_order_witness :
    fallbackTimedOut raceCands = false ∧
    firstWorkingResult (raceCands.map (fun c => c.outcome)) = some slowWinner ∧
    (testProxyWithFallbacks "HTTP" raceCands = .ok slowWinner ∧
     fallbackReturnTime raceCands = gatherTime raceCands) :=
  ⟨rfl, rfl, C1_first_working_in_list_order "HTTP" raceCands slowWinner rfl rfl⟩

/-- C7 counterexample: the claim is false on `timeoutCands`, where no
candidate succeeds, one candidate completed (failed) at t=1 and the
other completes only at t=100, past the 27-second per-protocol timeout.
The claim requires the last completed non-exception result to be
returned, but the timeout branch produces no per-protocol result at
all: its cancellation loop calls `.done()` on coroutine objects and
raises `AttributeError`, aborting the method. -/
theorem C7_counterexample_timeout_raises : ¬ claimC7statement := by
  intro h
  have hm : (⟨100, .ok lateFailure⟩ : Candidate) ∈ timeoutCands := by simp [timeoutCands]
  have hnos : ∀ c ∈ timeoutCands, isWorkingCand c = true → FALLBACK_TIMEOUT < c.time := by
    intro c hc hw
    simp [timeoutCands] at hc
    rcases hc with rfl | rfl <;> simp [isWorkingCand, earlyFailure, lateFailure] at hw
  have hlast : ∀ c2 ∈ timeoutCands, (∃ r2, c2.outcome = .ok r2) →
      c2.time ≤ (⟨100, .ok lateFailure⟩ : Candidate).time := by
    intro c2 hc2 _
    simp [timeoutCands] at hc2
    rcases hc2 with rfl | rfl <;> decide
  have hc := h "HTTP" timeoutCands hnos ⟨100, .ok lateFailure⟩ lateFailure hm rfl hlast
  have heq : testProxyWithFallbacks "HTTP" timeoutCands = .error coroutineDoneMsg := rfl
  rw [heq] at hc
  exact Except.noConfusion hc

/-- C7 amended: when no candidate succeeds and the gather completes
within the timeout, the per-protocol result is the last non-exception
result in candidate list order, or the default if every candidate
raised; when the timeout fires, no per-protocol result is produced at
all — the cancellation loop raises `AttributeError` (`tasks` holds raw
coroutines, which have no `done`), and the exception propagates,
aborting the whole endpoint check into a top-level error report. -/
theorem C7_no_success_result (protocol : String) (cands : List Candidate)
    (hnw : firstWorkingResult (cands.map (fun c => c.outcome)) = none) :
    testProxyWithFallbacks protocol cands =
      (if fallbackTimedOut cands then .error coroutineDoneMsg
       else .ok ((lastOkResult (cands.map (fun c => c.outcome))).getD (defaultResult protocol))) := by
  unfold testProxyWithFallbacks
  by_cases hto : fallbackTimedOut cands
  · rw [hto]
    rfl
  · simp only [hto, Bool.false_eq_true, if_false]
    exact congrArg Except.ok (processResults_no_working _ _ hnw)

/-- Reading the four flags with defaults always yields a usable
outcome. -/
theorem flagsFrom_ne_fallback (kvs : List (String × JValue)) :
    flagsFrom kvs ≠ .fallback := by
  simp [flagsFrom]

/-- C4 counterexample: a status-200 response whose JSON body carries all
four per-protocol fields nested under `data`, but no top-level `status`
or flag keys, satisfies the claimed usability condition yet the code
falls back (neither shape test at lines 182-186 matches, `result_data`
is never assigned, and the resulting `NameError` is swallowed). -/
theorem C4_counterexample_nested_without_status : ¬ claimC4statement := by
  intro h
  have hu : claimC4usable apiCexEnv = true := by decide
  have hne := (h apiCexEnv).2 hu
  exact hne (by decide)

/-- C4 amended: a response is used exactly when its status is in
`[200,500)`, its body parses as a truthy JSON dict, and either the body
has top-level `status == "success"` with a `data` value that is absent
or a dict (whose fields, possibly missing, default to false), or one of
the two keys `isHttpProxyValid`/`isHttpsProxyValid` is present at top
level.  Everything else — parse failures, falsy or non-dict bodies,
nested shapes without `status == "success"`, out-of-range statuses, and
transport errors — identically yields the fallback outcome and is never
surfaced as an error. -/
theorem C4_usable_characterization (env : ApiEnv) :
    processApiResponse env ≠ .fallback ↔ codeUsable env = true := by
  cases env with
  | transportError => simp [processApiResponse, codeUsable]
  | response status body =>
      by_cases hr : 200 ≤ status ∧ status < 500
      · cases body with
        | none => simp [processApiResponse, codeUsable, hr]
        | some data =>
            cases data with
            | obj kvs =>
                by_cases ht : kvs.isEmpty
                · simp [processApiResponse, codeUsable, hr, jTruthy, ht]
                · by_cases hs : statusIsSuccess kvs
                  · simp only [processApiResponse, codeUsable, hr, jTruthy, ht, hs]
                    unfold apiDataBranch
                    rcases hd : (jLookup kvs "data").getD (JValue.obj []) with _ | b | n | s | rkvs <;>
                      simp [hd, flagsFrom_ne_fallback, ht]
                  · simp only [processApiResponse, codeUsable, hr, jTruthy, ht, hs]
                    unfold apiTopLevelBranch
                    cases h1 : (jLookup kvs "isHttpProxyValid").isSome <;>
                      cases h2 : (jLookup kvs "isHttpsProxyValid").isSome <;>
                        simp [h1, h2, flagsFrom_ne_fallback, ht]
            | null => simp [processApiResponse, codeUsable, hr, jTruthy]
            | bool b => cases b <;> simp [processApiResponse, codeUsable, hr, jTruthy]
            | num n => by_cases hn : n = 0 <;> simp [processApiResponse, codeUsable, hr, jTruthy, hn]
            | str s => by_cases hsx : s = "" <;> simp [processApiResponse, codeUsable, hr, jTruthy, hsx]
      · simp [processApiResponse, codeUsable, hr]

/-- A sub-batch starting at a multiple of the (positive) batch size
contributes exactly the expected entries for its member indices. -/
theorem batchEntries_eq (l : List String) (env : Nat → TaskOutcome) (tmo : Nat → Bool)
    (bs n : Nat) (hbs : 0 < bs) (b : Nat) :
    batchEntries l env tmo bs n (b * bs) =
      (List.range (min bs (n - b * bs))).map (fun j => expectedEntry l env tmo bs (b * bs + j)) := by
  have hdiv : ∀ j, j < bs → (b * bs + j) / bs = b := by
    intro j hj
    rw [Nat.add_comm, Nat.add_mul_div_right j b hbs, Nat.div_eq_of_lt hj, Nat.zero_add]
  unfold batchEntries expectedEntry
  cases hto : tmo (b * bs) with
  | false =>
      rw [if_neg (by simp [hto])]
      apply List.map_congr_left
      intro j hj
      have hjlt : j < bs := lt_of_lt_of_le (List.mem_range.mp hj) (min_le_left _ _)
      rw [hdiv j hjlt, hto]
      simp
  | true =>
      rw [if_pos (by simp [hto])]
      apply List.map_congr_left
      intro j hj
      have hjlt : j < bs := lt_of_lt_of_le (List.mem_range.mp hj) (min_le_left _ _)
      rw [hdiv j hjlt, hto]
      simp

/-- Concatenating per-chunk maps over chunk-local indices yields the map
over the flattened index range. -/
theorem chunked_flatMap (f : Nat → String) (bs n : Nat) (q : Nat) :
    (List.range q).flatMap
        (fun b => (List.range (min bs (n - b * bs))).map (fun j => f (b * bs + j)))
      = (List.range (min (q * bs) n)).map f := by
  induction q with
  | zero => simp
  | succ q ih =>
      rw [List.range_succ, List.flatMap_append, ih]
      have hmul : (q + 1) * bs = q * bs + bs := Nat.succ_mul q bs
      rcases le_or_lt n (q * bs) with hle | hlt
      · have h1 : min (q * bs) n = n := min_eq_right hle
        have h2 : n - q * bs = 0 := Nat.sub_eq_zero_of_le hle
        have h3 : min ((q + 1) * bs) n = n := by
          set t := q * bs
          omega
        simp [h1, h2, h3]
      · have h1 : min (q * bs) n = q * bs := min_eq_left hlt.le
        have key : min ((q + 1) * bs) n = q * bs + min bs (n - q * bs) := by
          set t := q * bs
          omega
        rw [h1, key, List.range_add, List.map_append, List.map_map]
        simp [Function.comp]

/-- The number of Python `range(0, n, bs)` steps times the step covers
`n`. -/
theorem ceil_mul_ge (n bs : Nat) (hn : 0 < n) (hbs : 0 < bs) :
    n ≤ (n + bs - 1) / bs * bs := by
  have hq2 : (n + bs - 1) / bs = (n - 1) / bs + 1 := by
    have hq1 : n + bs - 1 = (n - 1) + bs := by omega
    rw [hq1, Nat.add_div_right _ hbs]
  have h0 : bs * ((n - 1) / bs) + (n - 1) % bs = n - 1 := Nat.div_add_mod _ _
  have h1 : (n - 1) % bs < bs := Nat.mod_lt _ hbs
  rw [hq2, Nat.succ_mul, Nat.mul_comm]
  set t := bs * ((n - 1) / bs)
  omega

/-- C3 counterexample: on the empty input list the length contract
fails.  With no endpoints `batch_size` is 0, `range(0, 0, 0)` raises
`ValueError`, and the outer handler returns a single-element error list
instead of an empty one. -/
theorem C3_counterexample_empty_batch : ¬ claimC3statement := by
  intro h
  have := h [] (fun _ => .ok "") (fun _ => false) none
  simp [checkMultipleProxies] at this

/-- C3 amended: for every NON-EMPTY input list, when orchestration
itself does not fail, the output has exactly the input length and the
entry at index `i` is derived from endpoint `i`: its gathered report,
its converted exception message, or the timeout message of the sub-batch
containing `i` — regardless of completion order and of which sub-batch
the index falls into.  (For the empty list, or when initialization
raises, a single-element error list is returned instead.) -/
theorem C3_order_and_length_preserved (l : List String) (env : Nat → TaskOutcome)
    (tmo : Nat → Bool) (hl : l ≠ []) :
    checkMultipleProxies l env tmo none =
      (List.range l.length).map (expectedEntry l env tmo (min 10 l.length)) ∧
    (checkMultipleProxies l env tmo none).length = l.length := by
  have hn : 0 < l.length := List.length_pos.mpr hl
  have hbs : 0 < min 10 l.length := by omega
  have hmain : checkMultipleProxies l env tmo none =
      (List.range l.length).map (expectedEntry l env tmo (min 10 l.length)) := by
    simp only [checkMultipleProxies, hn.ne', if_false]
    unfold batchStarts
    rw [List.flatMap_map]
    have hpt : ∀ b, batchEntries l env tmo (min 10 l.length) l.length (b * min 10 l.length) =
        (List.range (min (min 10 l.length) (l.length - b * min 10 l.length))).map
          (fun j => expectedEntry l env tmo (min 10 l.length) (b * min 10 l.length + j)) :=
      fun b => batchEntries_eq l env tmo _ _ hbs b
    simp only [hpt]
    rw [chunked_flatMap]
    rw [min_eq_right (ceil_mul_ge l.length _ hn hbs)]
  exact ⟨hmain, by rw [hmain]; simp⟩

/-- C3 witness: the amended theorem applied to a concrete two-endpoint
batch. -/
theorem C3_order_and_length_preserved_witness :
    checkMultipleProxies ["1.2.3.4:80", "5.6.7.8:81"] (fun _ => TaskOutcome.ok "r")
        (fun _ => false) none =
      (List.range (["1.2.3.4:80", "5.6.7.8:81"] : List String).length).map
        (expectedEntry ["1.2.3.4:80", "5.6.7.8:81"] (fun _ => TaskOutcome.ok "r")
          (fun _ => false) (min 10 (["1.2.3.4:80", "5.6.7.8:81"] : List String).length)) ∧
    (checkMultipleProxies ["1.2.3.4:80", "5.6.7.8:81"] (fun _ => TaskOutcome.ok "r")
        (fun _ => false) none).length = (["1.2.3.4:80", "5.6.7.8:81"] : List String).length :=
  C3_order_and_length_preserved _ _ _ (by decide)

/-- One step extends a prefix count by the indicator of the new event. -/
theorem countP_take_succ (tr : List SemEvent) (p : SemEvent → Bool) (i : Nat)
    (h : i < tr.length) :
    (tr.take (i+1)).countP p = (tr.take i).countP p + (if p tr[i] then 1 else 0) := by
  rw [List.take_succ, List.getElem?_eq_getElem h, List.countP_append]
  congr 1
  simp [List.countP_cons]

/-- In a well-formed trace the semaphore never admits past its capacity:
at every instant at most 20 permits are held. -/
theorem permitsHeld_le_capacity (tr : List SemEvent) (hwf : wfTrace tr) (i : Nat) :
    permitsHeld (tr.take i) ≤ (MAX_CONCURRENT_CHECKS : Int) := by
  induction i with
  | zero => simp [permitsHeld, countAcq, countRel, MAX_CONCURRENT_CHECKS]
  | succ i ih =>
      rcases le_or_lt tr.length i with hle | hlt
      · rw [List.take_of_length_le (le_trans hle (Nat.le_succ i))]
        rw [List.take_of_length_le hle] at ih
        exact ih
      · have hev := hwf i hlt
        unfold permitsHeld countAcq countRel at ih ⊢
        rw [countP_take_succ tr isAcq i hlt, countP_take_succ tr isRel i hlt]
        cases he : tr[i] with
        | acq c =>
            rw [he] at hev
            unfold eventOk at hev
            simp only [Bool.and_eq_true, decide_eq_true_eq] at hev
            have h1 := hev.1
            unfold countAcq countRel MAX_CONCURRENT_CHECKS at h1
            unfold MAX_CONCURRENT_CHECKS at ih ⊢
            simp only [isAcq, isRel, if_true, if_false]
            push_cast
            omega
        | rel c =>
            unfold MAX_CONCURRENT_CHECKS at ih ⊢
            simp only [isAcq, isRel, if_true, if_false]
            push_cast
            omega
        | opStart c k =>
            unfold MAX_CONCURRENT_CHECKS at ih ⊢
            simp only [isAcq, isRel, if_false]
            push_cast
            omega
        | opEnd c k =>
            unfold MAX_CONCURRENT_CHECKS at ih ⊢
            simp only [isAcq, isRel, if_false]
            push_cast
            omega

/-- In a well-formed trace each operation slot starts at most once. -/
theorem countOpStartOf_le_one (tr : List SemEvent) (hwf : wfTrace tr) (c k : Nat) (i : Nat) :
    countOpStartOf c k (tr.take i) ≤ 1 := by
  induction i with
  | zero => simp [countOpStartOf]
  | succ i ih =>
      rcases le_or_lt tr.length i with hle | hlt
      · rw [List.take_of_length_le (le_trans hle (Nat.le_succ i))]
        rw [List.take_of_length_le hle] at ih
        exact ih
      · unfold countOpStartOf at ih ⊢
        rw [countP_take_succ tr _ i hlt]
        by_cases hp : (tr[i] == SemEvent.opStart c k) = true
        · have heq : tr[i] = .opStart c k := beq_iff_eq.mp hp
          have hev := hwf i hlt
          rw [heq] at hev
          unfold eventOk at hev
          simp only [Bool.and_eq_true, beq_iff_eq, decide_eq_true_eq] at hev
          have h0 := hev.2
          unfold countOpStartOf at h0
          rw [hp]
          simp [h0]
        · rw [Bool.not_eq_true] at hp
          rw [hp]
          simpa using ih

/-- In a well-formed trace one check never has more than its
`maxOpsPerCheck` operation slots in flight. -/
theorem perCheckInFlight_le (tr : List SemEvent) (hwf : wfTrace tr) (c : Nat) (i : Nat) :
    perCheckInFlight c (tr.take i) ≤ maxOpsPerCheck := by
  unfold perCheckInFlight
  have hb : ∀ k ∈ List.range maxOpsPerCheck,
      countOpStartOf c k (tr.take i) - countOpEndOf c k (tr.take i) ≤ 1 := by
    intro k _
    exact le_trans (Nat.sub_le _ _) (countOpStartOf_le_one tr hwf c k i)
  calc ((List.range maxOpsPerCheck).map
          (fun k => countOpStartOf c k (tr.take i) - countOpEndOf c k (tr.take i))).sum
      ≤ ((List.range maxOpsPerCheck).map (fun _ => 1)).sum := List.sum_le_sum hb
    _ = maxOpsPerCheck := by simp

/-- C2 counterexample: the claim is false on `overloadTrace`, a
well-formed trace in which the semaphore has admitted two checks and
each has started its 12 fallback probes — 24 operations in flight under
2 held permits, exceeding the capacity of 20.  Individual operations do
not acquire semaphore units; only whole endpoint checks do. -/
theorem C2_counterexample_ops_exceed_ceiling : ¬ claimC2statement := by
  intro h
  have := (h overloadTrace (by decide) 26).1
  exact absurd this (by decide)

/-- C2 amended: the semaphore bounds the number of concurrently admitted
endpoint checks — each holding exactly one permit for its entire
pipeline — by the capacity 20 at every instant, and one admitted check
has at most `maxOpsPerCheck = 14` network operations (1 socket probe,
1 external-API call, 12 fallback probes) in flight at once; the global
number of in-flight network operations is bounded only by their
product, not by 20. -/
theorem C2_semaphore_bounds_checks (tr : List SemEvent) (hwf : wfTrace tr) (i : Nat) :
    permitsHeld (tr.take i) ≤ (MAX_CONCURRENT_CHECKS : Int) ∧
    ∀ c, perCheckInFlight c (tr.take i) ≤ maxOpsPerCheck :=
  ⟨permitsHeld_le_capacity tr hwf i, fun c => perCheckInFlight_le tr hwf c i⟩

/-- C2 witness: the amended theorem applied to the overload trace. -/
theorem C2_semaphore_bounds_checks_witness :
    permitsHeld (overloadTrace.take 26) ≤ (MAX_CONCURRENT_CHECKS : Int) ∧
    ∀ c, perCheckInFlight c (overloadTrace.take 26) ≤ maxOpsPerCheck :=
  C2_semaphore_bounds_checks overloadTrace (by decide) 26

/-- C8 counterexample: with 11 endpoints, task 10 belongs to the second
sub-batch, yet its creation (trace position 10) precedes the await of
sub-batch 0 (trace position 11).  All tasks are created and scheduled
before the first sub-batch await, so later sub-batch members begin
executing while the first sub-batch is still being awaited. -/
theorem C8_counterexample_tasks_started_upfront : ¬ claimC8statement := by
  intro h
  have := h 11 10 (by decide) (by decide)
  exact absurd this (by decide)

/-- C8 amended: in the orchestration trace, the first `n` events are the
task creations in input order — every endpoint task, whatever sub-batch
its index falls into, is created (and hence scheduled to start at the
orchestrator's first suspension) before any sub-batch await occurs; the
events from position `n` onward are exactly the sub-batch awaits, which
do run sequentially in sub-batch order.  Only result collection, not
task start, is chunked into sub-batches. -/
theorem C8_spawns_precede_batch_awaits (n k : Nat) (hk : k < n) :
    (orchestrationTrace n)[k]? = some (.spawn k) ∧
    ∀ j, n ≤ j → j < (orchestrationTrace n).length →
      ∃ s, (orchestrationTrace n)[j]? = some (.awaitBatch s) := by
  constructor
  · unfold orchestrationTrace
    rw [List.getElem?_append_left (by simpa using hk)]
    simp [hk]
  · intro j hj hjlen
    unfold orchestrationTrace at hjlen ⊢
    rw [List.getElem?_append_right (by simpa using hj)]
    simp only [List.length_append, List.length_map, List.length_range] at hjlen
    have hlt : j - n < (batchStarts n (min 10 n)).length := by omega
    simp only [List.length_map, List.length_range]
    rw [List.getElem?_map]
    rcases hx : (batchStarts n (min 10 n))[j - n]? with _ | s
    · exact absurd (List.getElem?_eq_none_iff.mp hx) (by omega)
    · exact ⟨s, by simp [hx]⟩

/-- C8 witness: the amended theorem applied to 11 endpoints and the
first second-sub-batch task. -/
theorem C8_spawns_precede_batch_awaits_witness :
    (orchestrationTrace 11)[10]? = some (.spawn 10) ∧
    ∀ j, 11 ≤ j → j < (orchestrationTrace 11).length →
      ∃ s, (orchestrationTrace 11)[j]? = some (.awaitBatch s) :=
  C8_spawns_precede_batch_awaits 11 10 (by decide)

/-- C9: for every endpoint that parses and validates but whose socket
probe fails (non-zero connect code or executor exception), `check_proxy`
returns the not-responding report immediately, with a trace showing the
socket was probed but the external API was never called and no fallback
probe of any protocol was launched. -/
theorem C9_dead_socket_short_circuit (proxyStr host : String) (port : Int)
    (auth : Option (String × String)) (env : CheckEnv) (username : Option String) (e : String)
    (hparse : parseProxyString proxyStr = .ok host port auth)
    (hvalid : validateIpPort host port = none)
    (hsock : (checkSocketConnection env.socketElapsed env.socket).error = some e) :
    checkProxy proxyStr env username = (notRespondingMsg proxyStr e, ⟨true, false, []⟩) := by
  unfold checkProxy
  simp only [hparse, hvalid, hsock]

/-- C9 witness: the theorem applied to a concrete endpoint whose socket
probe is refused. -/
theorem C9_dead_socket_short_circuit_witness :
    checkProxy "1.2.3.4:8080" deadEnv none =
      (notRespondingMsg "1.2.3.4:8080" "Connection error (code: 111)", ⟨true, false, []⟩) :=
  C9_dead_socket_short_circuit "1.2.3.4:8080" "1.2.3.4" 8080 none deadEnv none _
    (by decide) (by decide) rfl

/-- C7 witness: the amended theorem applied to the concrete timeout
scenario, where the race aborts with the `AttributeError` message. -/
theorem C7_no_success_result_witness :
    firstWorkingResult (timeoutCands.map (fun c => c.outcome)) = none ∧
    testProxyWithFallbacks "HTTP" timeoutCands =
      (if fallbackTimedOut timeoutCands then .error coroutineDoneMsg
       else .ok ((lastOkResult (timeoutCands.map (fun c => c.outcome))).getD
         (defaultResult "HTTP"))) :=
  ⟨rfl, C7_no_success_result "HTTP" timeoutCands rfl⟩

end Proxych
